import Mathlib

/-!
Shallow embedding of `src/airthings.py`.

The file models, from the source:
* the per-device acquisition loop of `main` (lines 116-144): the
  `for attempt in range(5)` retry loop with its `try`/`except`/`finally`
  around `WavePlusPlus(serial)`, `connect()`, `read()` and the two
  `disconnect()` call sites (line 122 inside the `try`, line 138 inside the
  `finally`), the `break` on a truthy read result, the sleep guarded by
  `attempt < 4` in the `except` branch, and the `for`-`else` give-up branch;
* the per-run orchestration (lines 110-156): one device after another, the
  output-file name built at lines 147-149 and the guarded `json.dump`;
* `parse_device_serials` (lines 59-70), the device-list resolution of
  `main` (lines 84-99), and the exit guard (lines 158-166).

The external device client (`WavePlusPlus`) is modelled by an oracle
(`AttemptBehavior`) stating, for each retry attempt, whether the
constructor, `connect()`, `read()` and the two `disconnect()` calls return
normally, and what `read()` returns.  Connection objects are identified by
the index of the attempt that created them (within one device run).
-/

/-- A sensor channel value as stored in a snapshot: numeric (modelled as an
integer; the program never inspects the values) or null. -/
abbrev SVal := Option Int

/-- A sensor snapshot, as returned by `WavePlusPlus.read()`: a mapping from
channel name to value, kept in insertion order.  Python truthiness: the
empty mapping is falsy; a `None` result is conflated with the empty
mapping, since the loop only ever tests the result for truthiness. -/
abbrev Snapshot := List (String × SVal)

/-- Outcome of `waveplus.read()` on one attempt: the call raises, or it
returns a snapshot (possibly empty/falsy). -/
inductive ReadOutcome
  | raises
  | returns (s : Snapshot)
  deriving DecidableEq

/-- External behaviour of the device client during one iteration of the
retry loop. -/
structure AttemptBehavior where
  /-- `WavePlusPlus(serial)` (line 119) returns normally. -/
  ctorOk : Bool
  /-- `waveplus.connect()` (line 120) returns normally. -/
  connectOk : Bool
  /-- what `waveplus.read()` (line 121) does. -/
  readResult : ReadOutcome
  /-- the in-`try` `waveplus.disconnect()` (line 122) returns normally. -/
  disconnectOk : Bool
  /-- the `finally`-block `waveplus.disconnect()` (line 138) returns
  normally; its failure is swallowed by the bare `except: pass`. -/
  cleanupOk : Bool
  deriving DecidableEq

/-- Connection-labelled events performed by the acquisition loop.  A
connection object is identified by the index of the attempt that created
it. -/
inductive Ev
  | ctorCall (conn : Nat)
  | connectCall (conn : Nat)
  | readCall (conn : Nat)
  /-- the `waveplus.disconnect()` at line 122, inside the `try`. -/
  | disconnectInline (conn : Nat)
  /-- the `waveplus.disconnect()` at line 138, inside the `finally`. -/
  | disconnectCleanup (conn : Nat)
  /-- the `sleep(5)` at line 133. -/
  | sleepEv
  deriving DecidableEq

/-- The `except` branch sleeps only when `attempt < 4` (line 132). -/
def sleepIf (i : Nat) : List Ev := if i < 4 then [Ev.sleepEv] else []

/-- The `finally` block (lines 134-140) disconnects whatever object the
variable `waveplus` currently holds, if any (the `in locals()` test at line
137); an exception from this call is swallowed by the bare `except: pass`,
so the call is recorded whether or not it succeeds. -/
def cleanupOn : Option Nat → List Ev
  | some c => [Ev.disconnectCleanup c]
  | none => []

/-- Result of one iteration of the retry loop: the events it performed, the
object held by the variable `waveplus` afterwards, and `some s` exactly when
the iteration reached the `break` at line 126 with snapshot `s`. -/
structure AttemptResult where
  trace : List Ev
  wp : Option Nat
  brk : Option Snapshot
  deriving DecidableEq

/-- One iteration of `for attempt in range(5)` (lines 117-140): attempt
index `i`, client behaviour `b`, with `wp` the object currently bound to the
variable `waveplus` (left over from an earlier attempt or device; `none` if
the variable was never assigned).  Every exception from the `try` block is
caught by the `except` at line 130 (which sleeps unless this is the last
attempt), and the `finally` cleanup swallows its own failures, so the body
never re-raises.  The variable `sensors` is reassigned only by a completed
`read()` and is tested (line 124) only immediately after such an
assignment, so its value is observable exactly through `brk`. -/
def runAttempt (i : Nat) (b : AttemptBehavior) (wp : Option Nat) : AttemptResult :=
  if b.ctorOk then
    if b.connectOk then
      match b.readResult with
      | .raises =>
          { trace := [Ev.ctorCall i, Ev.connectCall i, Ev.readCall i] ++ sleepIf i ++ cleanupOn (some i)
            wp := some i
            brk := none }
      | .returns s =>
          if b.disconnectOk then
            { trace := [Ev.ctorCall i, Ev.connectCall i, Ev.readCall i, Ev.disconnectInline i] ++ cleanupOn (some i)
              wp := some i
              brk := if s.isEmpty then none else some s }
          else
            { trace := [Ev.ctorCall i, Ev.connectCall i, Ev.readCall i, Ev.disconnectInline i] ++ sleepIf i ++ cleanupOn (some i)
              wp := some i
              brk := none }
    else
      { trace := [Ev.ctorCall i, Ev.connectCall i] ++ sleepIf i ++ cleanupOn (some i)
        wp := some i
        brk := none }
  else
    { trace := sleepIf i ++ cleanupOn wp
      wp := wp
      brk := none }

/-- Result of the whole retry loop for one device. -/
inductive LoopResult
  | success (s : Snapshot)
  | giveUp
  deriving DecidableEq

/-- State after the retry loop: the full event trace, the number of loop
iterations executed (each iteration is one connect/read cycle as far as the
client lets it proceed), the object still bound to `waveplus`, and the
result: `success` when the loop ended in the `break` at line 126, `giveUp`
when it fell through to the `for`-`else` branch at line 142. -/
structure LoopState where
  trace : List Ev
  iters : Nat
  wp : Option Nat
  result : LoopResult
  deriving DecidableEq

/-- The retry loop, recursing over the remaining attempt budget `rem` with
`i` the current value of the loop variable `attempt`. -/
def acquireAux (behav : Nat → AttemptBehavior) : Nat → Nat → Option Nat → LoopState
  | 0, _, wp => { trace := [], iters := 0, wp := wp, result := .giveUp }
  | rem + 1, i, wp =>
    let r := runAttempt i (behav i) wp
    match r.brk with
    | some s => { trace := r.trace, iters := 1, wp := r.wp, result := .success s }
    | none =>
      let rest := acquireAux behav rem (i + 1) r.wp
      { trace := r.trace ++ rest.trace
        iters := rest.iters + 1
        wp := rest.wp
        result := rest.result }

/-- `for attempt in range(5)` (line 117). -/
def maxAttempts : Nat := 5

/-- The whole acquisition loop for one device (lines 116-144), starting
with the variable `waveplus` bound to `wp0` (`none` before the first device
of a run). -/
def acquire (behav : Nat → AttemptBehavior) (wp0 : Option Nat) : LoopState :=
  acquireAux behav maxAttempts 0 wp0

/-- The iteration reaches the `break` at line 126: constructor, connect and
the in-`try` disconnect all return normally and the read returned a
non-empty (truthy) snapshot. -/
def attemptBreaks (b : AttemptBehavior) : Bool :=
  b.ctorOk && b.connectOk && b.disconnectOk &&
    (match b.readResult with
     | .raises => false
     | .returns s => !s.isEmpty)

/-- The `try` block raises, so the `except` branch at line 130 runs: the
constructor, connect, read, or the in-`try` disconnect fails. -/
def attemptRaises (b : AttemptBehavior) : Bool :=
  !(b.ctorOk && b.connectOk && b.disconnectOk &&
    (match b.readResult with
     | .raises => false
     | .returns _ => true))

/-- The attempt completes through the client but the read result is
empty/falsy, so the `else` branch at line 127 runs (which logs but does not
sleep). -/
def attemptEmpty (b : AttemptBehavior) : Bool :=
  b.ctorOk && b.connectOk && b.disconnectOk &&
    (match b.readResult with
     | .raises => false
     | .returns s => s.isEmpty)

def isSleep : Ev → Bool
  | .sleepEv => true
  | _ => false

/-- Number of `sleep(5)` calls in a trace. -/
def countSleeps (evs : List Ev) : Nat := evs.countP isSleep

def isDiscOn (c : Nat) : Ev → Bool
  | .disconnectInline k => k == c
  | .disconnectCleanup k => k == c
  | _ => false

/-- Number of disconnect invocations (either call site) acting on
connection `c` in a trace. -/
def discCountOn (c : Nat) (evs : List Ev) : Nat := evs.countP (isDiscOn c)

/-- The connection an event acts on, if any. -/
def evConn : Ev → Option Nat
  | .ctorCall c => some c
  | .connectCall c => some c
  | .readCall c => some c
  | .disconnectInline c => some c
  | .disconnectCleanup c => some c
  | .sleepEv => none

/-! ## Orchestration: output files and the per-run device loop -/

/-- A wall-clock timestamp at second resolution, as rendered by
`datetime.now().strftime("%Y-%m-%d-%H-%M-%S")` at line 147.  Fields range as
`datetime` produces them: four-digit year, two-digit other fields. -/
structure Timestamp where
  year : Nat
  month : Nat
  day : Nat
  hour : Nat
  minute : Nat
  second : Nat
  deriving DecidableEq

def digitChar (n : Nat) : Char := Char.ofNat (48 + n)

/-- Two-digit zero-padded field, as `strftime` renders the month, day,
hour, minute and second directives over their value ranges. -/
def pad2 (n : Nat) : String := String.mk [digitChar (n / 10), digitChar (n % 10)]

/-- Four-digit zero-padded field, as `strftime` renders the year directive
for the years `datetime.now()` produces. -/
def pad4 (n : Nat) : String :=
  String.mk [digitChar (n / 1000), digitChar (n / 100 % 10), digitChar (n / 10 % 10), digitChar (n % 10)]

/-- The second-resolution timestamp string of line 147. -/
def strftimeSecond (t : Timestamp) : String :=
  pad4 t.year ++ "-" ++ pad2 t.month ++ "-" ++ pad2 t.day ++ "-" ++
    pad2 t.hour ++ "-" ++ pad2 t.minute ++ "-" ++ pad2 t.second

/-- The output file name built at line 148: prefix, serial, timestamp. -/
def dataFileName (serial : Int) (t : Timestamp) : String :=
  "WavePlusPlus-" ++ toString serial ++ "-" ++ strftimeSecond t ++ ".json"

/-- The JSON document that `json.dump(sensors, fh, indent=4,
sort_keys=False)` (line 153) writes: object entries appear in the insertion
order of the mapping, because `sort_keys` is false. -/
inductive Json
  | null
  | num (n : Int)
  | obj (entries : List (String × Json))

def svalJson : SVal → Json
  | none => Json.null
  | some n => Json.num n

/-- Serialization of a snapshot: an object with one entry per channel, in
the snapshot order. -/
def snapshotJson (s : Snapshot) : Json :=
  Json.obj (s.map (fun e => (e.1, svalJson e.2)))

/-- The key sequence of a serialized document, in output order. -/
def jsonKeys : Json → List String
  | Json.obj es => es.map Prod.fst
  | _ => []

/-- Everything external that determines the processing of one device inside
the loop at line 110: the (already integer) serial from its descriptor, the
client behaviour per attempt, whether the `open`/`json.dump` at lines
152-153 succeeds, and the wall-clock timestamp taken at line 147. -/
structure DeviceRun where
  serial : Int
  behav : Nat → AttemptBehavior
  writeOk : Bool
  stamp : Timestamp

/-- Outcome of lines 116-156 for one device. -/
inductive DevOutcome
  /-- the data file was written (lines 152-154). -/
  | saved (file : String) (s : Snapshot)
  /-- the `except` at line 155: the failure is logged, the run continues. -/
  | writeFailed (file : String)
  /-- the `for`-`else` at line 142: a warning is logged and `continue`
  moves to the next device, skipping the save. -/
  | acquisitionFailed
  deriving DecidableEq

/-- The per-device processing, as a function of the device alone (the
`waveplus` variable inherited from earlier devices never influences the
outcome; see `runDevices_eq_map`). -/
def deviceOutcome (d : DeviceRun) : DevOutcome :=
  match (acquire d.behav none).result with
  | .success s =>
      if d.writeOk then .saved (dataFileName d.serial d.stamp) s
      else .writeFailed (dataFileName d.serial d.stamp)
  | .giveUp => .acquisitionFailed

/-- The per-run loop over devices (line 110), threading the `waveplus`
variable, which survives in the scope of `main` across devices. -/
def runDevices : List DeviceRun → Option Nat → List DevOutcome
  | [], _ => []
  | d :: rest, wp =>
    let st := acquire d.behav wp
    let out : DevOutcome :=
      match st.result with
      | .success s =>
          if d.writeOk then .saved (dataFileName d.serial d.stamp) s
          else .writeFailed (dataFileName d.serial d.stamp)
      | .giveUp => .acquisitionFailed
    out :: runDevices rest st.wp

/-! ## Device descriptors, configuration resolution and the exit guard -/

/-- A device descriptor as a Python dict: the `name` key may be absent
(`none`), present holding `None` (`some none`), or present holding a string
(`some (some str)`). -/
structure PyDevice where
  name : Option (Option String)
  serial : Int
  deriving DecidableEq

/-- The display-name lookup at line 112: `device.get` with the synthesized
default.  The default is used only when the key is absent; a stored `None`
is returned as stored. -/
def displayName (name : Option (Option String)) (serial : Int) : Option String :=
  match name with
  | none => some ("Device-" ++ toString serial)
  | some v => v

/-- The split of `serial_string.split(",")` (line 64): break at every
comma, keeping empty tokens; splitting the empty string yields one empty
token, as in Python. -/
def splitCommas : List Char → List (List Char)
  | [] => [[]]
  | c :: rest =>
    let r := splitCommas rest
    if c = ',' then [] :: r
    else
      match r with
      | t :: ts => (c :: t) :: ts
      | [] => [[c]]

/-- ASCII whitespace as stripped by Python `str.strip()`. -/
def isSpaceChar (c : Char) : Bool :=
  c = ' ' || c = '\t' || c = '\n' || c = '\r' || c = '\x0b' || c = '\x0c'

/-- `tok.strip()` on a character list. -/
def trimChars (cs : List Char) : List Char :=
  ((cs.dropWhile isSpaceChar).reverse.dropWhile isSpaceChar).reverse

/-- Python `int(tok.strip())` on one token of the serial list: strip
surrounding whitespace, optional sign, then decimal digits (digit-group
underscores are not modelled; no claim depends on them). -/
def parseIntToken (tok : List Char) : Option Int :=
  let t := trimChars tok
  let sign : Int :=
    match t with
    | '-' :: _ => -1
    | _ => 1
  let digits : List Char :=
    match t with
    | '-' :: rest => rest
    | '+' :: rest => rest
    | _ => t
  if digits.isEmpty then none
  else if digits.all Char.isDigit then
    some (sign * Int.ofNat (digits.foldl (fun acc c => acc * 10 + (c.toNat - 48)) 0))
  else none

/-- `parse_device_serials` (lines 59-70): split the argument on commas and
parse every token as an integer; one bad token raises `ValueError` for the
whole call; every produced descriptor stores `name: None` explicitly. -/
def parse_device_serials (serial_string : String) : Except String (List PyDevice) :=
  match (splitCommas serial_string.toList).mapM parseIntToken with
  | some ns => .ok (ns.map (fun n => { name := some none, serial := n }))
  | none => .error ("Invalid serial number passed. Must be integers separated by commas. Received: " ++ serial_string)

structure OutputCfg where
  path : Option String
  deriving DecidableEq

/-- A loaded, truthy (non-empty) configuration dict; the `devices` and
`output` keys may each be absent. -/
structure Cfg where
  devices : Option (List PyDevice)
  output : Option OutputCfg
  deriving DecidableEq

/-- The data-path lookup at line 99, chained `get` calls with defaults. -/
def resolvedDataPath (c : Cfg) : String :=
  match c.output with
  | none => "data"
  | some o => o.path.getD "data"

/-- The exceptions the resolution code can raise. -/
inductive PyExc
  | fileNotFound (msg : String)
  | valueError (msg : String)
  deriving DecidableEq

/-- Truthiness of `args.device_serial` (line 84): absent or the empty
string is falsy. -/
def strTruthy : Option String → Bool
  | none => false
  | some s => !s.isEmpty

/-- Lines 84-99: resolve the device list and the data path.  `cfg` is the
outcome of `load_config`: `none` whenever `load_config` returned a falsy
dict (file missing, unreadable, or loading to an empty dict), `some c`
when it returned a truthy dict. -/
def resolveDevices (cli : Option String) (cfg : Option Cfg) :
    Except PyExc (List PyDevice × String) :=
  if strTruthy cli then
    match parse_device_serials (cli.getD "") with
    | .ok ds => .ok (ds, "data")
    | .error m => .error (PyExc.valueError m)
  else
    match cfg with
    | none => .error (PyExc.fileNotFound "No devices passed and no config.json found.")
    | some c => .ok (c.devices.getD [], resolvedDataPath c)

/-- What the exit guard observes about one execution of `main`. -/
inductive MainOutcome
  | normal
  | interrupted
  | excOut (e : PyExc)
  deriving DecidableEq

/-- The body of `main` at the level the exit guard observes: device
resolution may raise; after it, the per-device loop contains all its own
exception handling (see `runDevices`) and `main` returns normally.  An
interruption is an external event injected at the guard, never produced
here. -/
def mainRun (cli : Option String) (cfg : Option Cfg) : MainOutcome :=
  match resolveDevices cli cfg with
  | .error e => .excOut e
  | .ok _ => .normal

/-- The exit guard (lines 158-166): `sys.exit(0)` on `KeyboardInterrupt`,
`sys.exit(1)` on any other `Exception`, and implicit status 0 when `main`
returns normally. -/
def exit_code : MainOutcome → Nat
  | .normal => 0
  | .interrupted => 0
  | .excOut _ => 1

/-! ## Per-attempt lemmas -/

theorem runAttempt_brk_none (i : Nat) (b : AttemptBehavior) (wp : Option Nat)
    (h : attemptBreaks b = false) : (runAttempt i b wp).brk = none := by
  rcases b with ⟨c1, c2, rr, d1, cl⟩
  cases rr with
  | raises => cases c1 <;> cases c2 <;> cases d1 <;> simp [runAttempt]
  | returns s =>
    simp only [attemptBreaks] at h
    cases c1 <;> cases c2 <;> cases d1 <;> simp_all [runAttempt]

theorem runAttempt_brk_some (i : Nat) (b : AttemptBehavior) (wp : Option Nat) (s : Snapshot)
    (hb : attemptBreaks b = true) (hs : b.readResult = ReadOutcome.returns s) :
    (runAttempt i b wp).brk = some s := by
  rcases b with ⟨c1, c2, rr, d1, cl⟩
  simp only at hs
  subst hs
  simp only [attemptBreaks, Bool.and_eq_true] at hb
  obtain ⟨⟨⟨h1, h2⟩, h3⟩, h4⟩ := hb
  subst h1
  subst h2
  subst h3
  simp only [Bool.not_eq_true'] at h4
  simp [runAttempt, h4]

/-! ## Loop lemmas -/

theorem acquireAux_success_at (behav : Nat → AttemptBehavior) :
    ∀ (m rem i : Nat) (wp : Option Nat) (s : Snapshot),
      m < rem →
      (∀ j, j < m → attemptBreaks (behav (i + j)) = false) →
      attemptBreaks (behav (i + m)) = true →
      (behav (i + m)).readResult = ReadOutcome.returns s →
      (acquireAux behav rem i wp).result = LoopResult.success s ∧
      (acquireAux behav rem i wp).iters = m + 1 := by
  intro m
  induction m with
  | zero =>
    intro rem i wp s hm hprev hbrk hread
    match rem, hm with
    | rem + 1, _ =>
      rw [Nat.add_zero] at hbrk hread
      have h0 : (runAttempt i (behav i) wp).brk = some s :=
        runAttempt_brk_some i (behav i) wp s hbrk hread
      simp [acquireAux, h0]
  | succ m ih =>
    intro rem i wp s hm hprev hbrk hread
    match rem, hm with
    | rem + 1, hm =>
      have h0 : attemptBreaks (behav i) = false := by
        have := hprev 0 (Nat.succ_pos m)
        rwa [Nat.add_zero] at this
      have hb : (runAttempt i (behav i) wp).brk = none :=
        runAttempt_brk_none i (behav i) wp h0
      have eidx : i + (m + 1) = (i + 1) + m := by omega
      rw [eidx] at hbrk hread
      have ihh := ih rem (i + 1) (runAttempt i (behav i) wp).wp s
        (Nat.lt_of_succ_lt_succ hm)
        (fun j hj => by
          have h := hprev (j + 1) (Nat.succ_lt_succ hj)
          have e2 : i + (j + 1) = (i + 1) + j := by omega
          rwa [e2] at h)
        hbrk hread
      simp [acquireAux, hb, ihh.1, ihh.2]

theorem runAttempt_brk_wp_irrel (i : Nat) (b : AttemptBehavior) (wp wp2 : Option Nat) :
    (runAttempt i b wp).brk = (runAttempt i b wp2).brk := by
  rcases b with ⟨c1, c2, rr, d1, cl⟩
  cases c1 <;> cases c2 <;> cases rr <;> cases d1 <;> simp [runAttempt]

theorem acquireAux_result_wp_irrel (behav : Nat → AttemptBehavior) :
    ∀ (rem i : Nat) (wp wp2 : Option Nat),
      (acquireAux behav rem i wp).result = (acquireAux behav rem i wp2).result ∧
      (acquireAux behav rem i wp).iters = (acquireAux behav rem i wp2).iters := by
  intro rem
  induction rem with
  | zero => intro i wp wp2; exact ⟨rfl, rfl⟩
  | succ rem ih =>
    intro i wp wp2
    have hbrk := runAttempt_brk_wp_irrel i (behav i) wp wp2
    cases h : (runAttempt i (behav i) wp).brk with
    | some s =>
      rw [h] at hbrk
      simp [acquireAux, h, ← hbrk]
    | none =>
      rw [h] at hbrk
      have ihh := ih (i + 1) (runAttempt i (behav i) wp).wp (runAttempt i (behav i) wp2).wp
      simp [acquireAux, h, ← hbrk, ihh.1, ihh.2]

theorem acquire_result_wp_irrel (behav : Nat → AttemptBehavior) (wp wp2 : Option Nat) :
    (acquire behav wp).result = (acquire behav wp2).result :=
  (acquireAux_result_wp_irrel behav maxAttempts 0 wp wp2).1

/-- The outcome list of a run is the pointwise per-device outcome: every
device descriptor is processed, in order, and nothing a previous device did
(including the stale `waveplus` binding) influences a later device outcome. -/
theorem runDevices_eq_map : ∀ (ds : List DeviceRun) (wp : Option Nat),
    runDevices ds wp = ds.map deviceOutcome := by
  intro ds
  induction ds with
  | nil => intro wp; rfl
  | cons d rest ih =>
    intro wp
    have hres : (acquire d.behav wp).result = (acquire d.behav none).result :=
      acquire_result_wp_irrel d.behav wp none
    simp only [runDevices, List.map, deviceOutcome, hres]
    rw [ih]

/-! ## Concrete client behaviours used in counterexamples and witnesses -/

/-- Constructor, connect, read and both disconnects succeed; the read is a
non-empty snapshot. -/
def bSuccess : AttemptBehavior :=
  { ctorOk := true, connectOk := true, readResult := ReadOutcome.returns [("radon", some 3)]
    disconnectOk := true, cleanupOk := true }

/-- `connect()` raises on every call. -/
def bConnectRaise : AttemptBehavior :=
  { ctorOk := true, connectOk := false, readResult := ReadOutcome.raises
    disconnectOk := true, cleanupOk := true }

/-- Everything succeeds but the read result is empty/falsy. -/
def bEmptyRead : AttemptBehavior :=
  { ctorOk := true, connectOk := true, readResult := ReadOutcome.returns []
    disconnectOk := true, cleanupOk := true }

/-- The read is non-empty but the in-`try` `disconnect()` raises. -/
def bDiscFail : AttemptBehavior :=
  { ctorOk := true, connectOk := true, readResult := ReadOutcome.returns [("radon", some 3)]
    disconnectOk := false, cleanupOk := true }

/-- `WavePlusPlus(serial)` itself raises. -/
def bCtorFail : AttemptBehavior :=
  { ctorOk := false, connectOk := true, readResult := ReadOutcome.raises
    disconnectOk := true, cleanupOk := true }

/-! ## Claim C1 -/

/-- Claim C1: if the first `k - 1` attempts do not reach the `break` and on
attempt `k` (1-indexed; loop index `k - 1`) the constructor, `connect()`,
`read()` and the in-`try` `disconnect()` all return normally with a
non-empty snapshot `s`, then the loop stops immediately after attempt `k`:
it yields `s` for persistence and executes exactly `k` iterations (each
iteration being one connect/read cycle), with no further attempts. -/
theorem acquire_first_success (behav : Nat → AttemptBehavior) (wp0 : Option Nat)
    (k : Nat) (s : Snapshot)
    (hk1 : 1 ≤ k) (hk5 : k ≤ maxAttempts)
    (hprev : ∀ j, j < k - 1 → attemptBreaks (behav j) = false)
    (hctor : (behav (k - 1)).ctorOk = true)
    (hconn : (behav (k - 1)).connectOk = true)
    (hread : (behav (k - 1)).readResult = ReadOutcome.returns s)
    (hne : s.isEmpty = false)
    (hdisc : (behav (k - 1)).disconnectOk = true) :
    (acquire behav wp0).result = LoopResult.success s ∧
    (acquire behav wp0).iters = k := by
  have hbrk : attemptBreaks (behav (k - 1)) = true := by
    simp [attemptBreaks, hctor, hconn, hdisc, hread, hne]
  have hm : k - 1 < maxAttempts := by
    simp only [maxAttempts] at hk5 ⊢
    omega
  have h := acquireAux_success_at behav (k - 1) maxAttempts 0 wp0 s hm
    (fun j hj => by simpa using hprev j hj)
    (by simpa using hbrk) (by simpa using hread)
  refine ⟨h.1, ?_⟩
  have : k - 1 + 1 = k := by omega
  rw [acquire, h.2, this]

/-- The client behaviour of the C1 witness: attempt 0 fails at `connect()`,
attempt 1 (the second attempt) succeeds. -/
def behavSecondTry : Nat → AttemptBehavior := fun i =>
  if i = 0 then bConnectRaise else bSuccess

/-- Witness for `acquire_first_success` at a concrete input: the second
attempt succeeds, the loop returns its snapshot after exactly two
iterations. -/
theorem acquire_first_success_witness :
    (1 ≤ 2 ∧ (behavSecondTry 1).readResult = ReadOutcome.returns [("radon", some 3)]) ∧
    (acquire behavSecondTry none).result = LoopResult.success [("radon", some 3)] ∧
    (acquire behavSecondTry none).iters = 2 := by
  refine ⟨⟨by decide, by decide⟩, ?_⟩
  exact acquire_first_success behavSecondTry none 2 [("radon", some 3)]
    (by decide) (by decide)
    (fun j hj => by
      have hj0 : j = 0 := by omega
      subst hj0
      decide)
    (by decide) (by decide) (by decide) (by decide) (by decide)

/-! ## Claim C2 -/

/-- Claim C2 (evaluation at the failing input): when the client returns an
empty/falsy snapshot on all five attempts, the loop runs all five attempts
and ends in the give-up branch but performs zero sleeps — the warning at
line 128 announces a retry in five seconds while the empty-result branch
never calls `sleep`; only the `except` branch sleeps, which is why the
always-raising class does sleep exactly four times (never after the final
attempt). -/
theorem empty_result_retries_without_sleep :
    (acquire (fun _ => bEmptyRead) none).iters = 5 ∧
    (acquire (fun _ => bEmptyRead) none).result = LoopResult.giveUp ∧
    countSleeps (acquire (fun _ => bEmptyRead) none).trace = 0 ∧
    (acquire (fun _ => bConnectRaise) none).iters = 5 ∧
    (acquire (fun _ => bConnectRaise) none).result = LoopResult.giveUp ∧
    countSleeps (acquire (fun _ => bConnectRaise) none).trace = 4 := by
  decide

/-! ## Claim C3 -/

/-- Claim C3 (counterexample): on a fully successful attempt the loop calls
`disconnect` twice on that attempt connection — once at line 122 and once
in the `finally` at line 138 — not exactly once. -/
theorem disconnect_called_twice_cex :
    discCountOn 0 (acquire (fun _ => bSuccess) none).trace = 2 ∧ (2 : Nat) ≠ 1 := by
  decide

def isReturns : ReadOutcome → Bool
  | .raises => false
  | .returns _ => true

/-- Claim C3 (amended): per attempt, the number of disconnect calls on the
connection created by that attempt is two when `connect()` and `read()`
both return (the in-`try` call at line 122 — made even when it raises —
plus the `finally` call at line 138), one when the constructor succeeded
but `connect()` or `read()` raised (the `finally` call only), and zero when
the constructor raised (no connection was created; the `finally` then
targets a stale connection of an earlier attempt, if any). -/
theorem runAttempt_disconnect_count (i : Nat) (b : AttemptBehavior) (wp : Option Nat)
    (hw : ∀ c, wp = some c → c ≠ i) :
    discCountOn i (runAttempt i b wp).trace =
      if b.ctorOk then (if b.connectOk && isReturns b.readResult then 2 else 1) else 0 := by
  rcases b with ⟨c1, c2, rr, d1, cl⟩
  cases wp with
  | none =>
    by_cases h4 : i < 4 <;> cases c1 <;> cases c2 <;> cases rr <;> cases d1 <;>
      simp [runAttempt, discCountOn, sleepIf, cleanupOn, isReturns, isDiscOn, h4]
  | some c =>
    have hc : (c == i) = false := by
      simp [hw c rfl]
    by_cases h4 : i < 4 <;> cases c1 <;> cases c2 <;> cases rr <;> cases d1 <;>
      simp [runAttempt, discCountOn, sleepIf, cleanupOn, isReturns, isDiscOn, h4, hc]

/-- Witness for `runAttempt_disconnect_count` at a concrete input: a fully
successful attempt with no stale connection in scope disconnects its own
connection twice. -/
theorem runAttempt_disconnect_count_witness :
    (∀ c, (none : Option Nat) = some c → c ≠ 0) ∧
    discCountOn 0 (runAttempt 0 bSuccess none).trace = 2 := by
  constructor
  · intro c hc
    cases hc
  · have h := runAttempt_disconnect_count 0 bSuccess none (fun c hc => by cases hc)
    simpa [bSuccess, isReturns] using h

/-! ## Claim C4 -/

/-- Claim C4 (counterexample): when the in-`try` `disconnect()` (line 122)
raises on every attempt while every read returns a non-empty snapshot, the
loop ends in the give-up branch — the disconnect failure changed each
attempt outcome from success to error, so the claim that a disconnect
failure never changes the recorded outcome is false. -/
theorem inline_disconnect_failure_cex :
    (bDiscFail.readResult = ReadOutcome.returns [("radon", some 3)] ∧
      ([("radon", some 3)] : Snapshot).isEmpty = false) ∧
    (acquire (fun _ => bDiscFail) none).result = LoopResult.giveUp := by
  decide

/-- Claim C4 (amended): a failure of the `finally`-block `disconnect` (line
138) is fully swallowed: the attempt result — events, `waveplus` binding
and outcome — does not depend on `cleanupOk` at all, and the loop body
never re-raises.  A failure of the in-`try` `disconnect` (line 122),
however, raises before the success test at line 124, so an attempt whose
read produced a non-empty snapshot is recorded as an error, not a
success. -/
theorem disconnect_failure_effects (i : Nat) (b : AttemptBehavior) (wp : Option Nat)
    (s : Snapshot)
    (h1 : b.ctorOk = true) (h2 : b.connectOk = true)
    (h3 : b.readResult = ReadOutcome.returns s) (_h4 : s.isEmpty = false)
    (h5 : b.disconnectOk = false) :
    (runAttempt i b wp).brk = none ∧
    (∀ c, runAttempt i { b with cleanupOk := c } wp = runAttempt i b wp) := by
  constructor
  · simp [runAttempt, h1, h2, h3, h5]
  · intro c
    rfl

/-- Witness for `disconnect_failure_effects` at a concrete input. -/
theorem disconnect_failure_effects_witness :
    (bDiscFail.ctorOk = true ∧ bDiscFail.disconnectOk = false) ∧
    (runAttempt 0 bDiscFail none).brk = none ∧
    (∀ c, runAttempt 0 { bDiscFail with cleanupOk := c } none = runAttempt 0 bDiscFail none) := by
  refine ⟨⟨by decide, by decide⟩, ?_⟩
  exact disconnect_failure_effects 0 bDiscFail none [("radon", some 3)]
    (by decide) (by decide) (by decide) (by decide) (by decide)

/-! ## Claim C5 -/

/-- The client behaviour of the C5 counterexample: attempt 0 completes with
an empty read (leaving its connection bound to `waveplus`); from attempt 1
on, the constructor raises. -/
def behavStale : Nat → AttemptBehavior := fun i =>
  if i = 0 then bEmptyRead else bCtorFail

/-- Claim C5 (counterexample): attempt 0 leaves connection 0 bound to the
`waveplus` variable; on attempt 1 the constructor raises and the `finally`
cleanup of attempt 1 disconnects connection 0 — an operation on a
connection created by a previous attempt, which the claim forbids.  Over
the whole run, connection 0 receives six disconnect calls, one per later
attempt beyond the two of its own attempt. -/
theorem stale_connection_cex :
    (runAttempt 0 bEmptyRead none).wp = some 0 ∧
    (runAttempt 1 bCtorFail (some 0)).trace = [Ev.sleepEv, Ev.disconnectCleanup 0] ∧
    discCountOn 0 (acquire behavStale none).trace = 6 := by
  decide

/-- Claim C5 (amended): when the constructor succeeds, the attempt operates
only on the fresh connection it created (every connection-labelled event of
the attempt names that attempt); when the constructor raises, the attempt
performs no device operation except that its `finally` block disconnects
whatever stale connection the `waveplus` variable still holds from an
earlier attempt or device, if any. -/
theorem runAttempt_all_own (i : Nat) (b : AttemptBehavior) (wp : Option Nat)
    (hb : b.ctorOk = true) :
    ((runAttempt i b wp).trace).all (fun e => (evConn e == some i) || isSleep e) = true := by
  have hsl0 : ∀ x ∈ sleepIf i, x = Ev.sleepEv := by
    intro x hx
    simp only [sleepIf] at hx
    split at hx <;> simp_all
  rcases b with ⟨c1, c2, rr, d1, cl⟩
  simp only at hb
  subst hb
  cases c2 <;> cases rr <;> cases d1 <;>
    simp [runAttempt, cleanupOn, List.all_append, evConn, isSleep] <;>
    (intro x hx
     have hx2 := hsl0 x hx
     subst hx2
     simp)

theorem connection_ownership (i : Nat) (b : AttemptBehavior) (wp : Option Nat)
    (hb : b.ctorOk = true) :
    (∀ e ∈ (runAttempt i b wp).trace, evConn e = some i ∨ e = Ev.sleepEv) ∧
    (∀ bf : AttemptBehavior, bf.ctorOk = false →
      (runAttempt i bf wp).trace = sleepIf i ++ cleanupOn wp) := by
  constructor
  · intro e he
    have h := List.all_eq_true.mp (runAttempt_all_own i b wp hb) e he
    cases e <;> simp_all [evConn, isSleep]
  · intro bf hbf
    rcases bf with ⟨f1, f2, fr, f4, f5⟩
    simp only at hbf
    subst hbf
    simp [runAttempt]

/-- Witness for `connection_ownership` at a concrete input. -/
theorem connection_ownership_witness :
    bEmptyRead.ctorOk = true ∧
    (∀ e ∈ (runAttempt 0 bEmptyRead (some 7)).trace, evConn e = some 0 ∨ e = Ev.sleepEv) ∧
    (∀ bf : AttemptBehavior, bf.ctorOk = false →
      (runAttempt 0 bf (some 7)).trace = sleepIf 0 ++ cleanupOn (some 7)) := by
  refine ⟨by decide, ?_⟩
  exact connection_ownership 0 bEmptyRead (some 7) (by decide)

/-! ## Claim C6 -/

/-- Claim C6: a failure confined to one device — acquisition exhaustion or
a failure to write its output file — is caught inside the device loop and
only shapes that device outcome; the run never raises for it, every
descriptor before and after is processed in order, and the outcome of every
other device is untouched. -/
theorem run_isolates_device_failures (ds1 ds2 : List DeviceRun) (d : DeviceRun)
    (wp : Option Nat)
    (_hfail : deviceOutcome d = DevOutcome.acquisitionFailed ∨
      deviceOutcome d = DevOutcome.writeFailed (dataFileName d.serial d.stamp)) :
    runDevices (ds1 ++ d :: ds2) wp =
      ds1.map deviceOutcome ++ deviceOutcome d :: ds2.map deviceOutcome ∧
    (runDevices (ds1 ++ d :: ds2) wp).length = ds1.length + 1 + ds2.length := by
  have h := runDevices_eq_map (ds1 ++ d :: ds2) wp
  constructor
  · rw [h, List.map_append, List.map_cons]
  · rw [h, List.length_map, List.length_append, List.length_cons]
    omega

/-- A device whose client always raises at `connect()`. -/
def devBad : DeviceRun :=
  { serial := 2930000002, behav := fun _ => bConnectRaise, writeOk := true
    stamp := { year := 2025, month := 1, day := 2, hour := 3, minute := 4, second := 5 } }

/-- A device whose client succeeds on the first attempt. -/
def devGood : DeviceRun :=
  { serial := 2930000001, behav := fun _ => bSuccess, writeOk := true
    stamp := { year := 2025, month := 1, day := 2, hour := 3, minute := 4, second := 5 } }

/-- Witness for `run_isolates_device_failures` at a concrete input: the
first device exhausts all attempts, and the following device is still
processed and saved. -/
theorem run_isolates_device_failures_witness :
    deviceOutcome devBad = DevOutcome.acquisitionFailed ∧
    runDevices [devBad, devGood] none =
      [DevOutcome.acquisitionFailed, deviceOutcome devGood] := by
  constructor
  · decide
  · have h := run_isolates_device_failures [] [devGood] devBad none (Or.inl (by decide))
    have h2 := h.1
    simpa [(by decide : deviceOutcome devBad = DevOutcome.acquisitionFailed)] using h2

/-! ## Claim C7 -/

/-- Claim C7 (evaluation at the failing input): a CLI-built descriptor
stores `None` under the `name` key, so the `get` with a synthesized default
at line 112 returns `None` — the display name is null, not the synthesized
`Device-2930012345`; the synthesized name appears only when the key is
absent altogether (as a config-file descriptor may have it). -/
theorem cli_display_name_is_none :
    parse_device_serials "2930012345" =
      Except.ok [{ name := some none, serial := 2930012345 }] ∧
    displayName (some none) 2930012345 = none ∧
    displayName none 2930012345 = some "Device-2930012345" ∧
    none ≠ some ("Device-" ++ toString (2930012345 : Int)) := by
  refine ⟨rfl, rfl, rfl, by decide⟩

/-! ## Claim C8 -/

theorem pad2_length (n : Nat) : (pad2 n).length = 2 := rfl

theorem pad4_length (n : Nat) : (pad4 n).length = 4 := rfl

theorem string_length_append (a b : String) : (a ++ b).length = a.length + b.length := by
  rcases a with ⟨da⟩
  rcases b with ⟨db⟩
  simp [String.length, String.append]

theorem strftimeSecond_length (t : Timestamp) : (strftimeSecond t).length = 19 := by
  simp [strftimeSecond, string_length_append, pad2_length, pad4_length]
  rfl

theorem snapshotJson_keys (s : Snapshot) : jsonKeys (snapshotJson s) = s.map Prod.fst := by
  induction s with
  | nil => rfl
  | cons e rest ih =>
    simp only [snapshotJson, jsonKeys, List.map] at ih ⊢
    rw [ih]

/-- Claim C8: for every successful device poll exactly one output document
is produced, as the `saved` outcome of that device; its filename is the
`WavePlusPlus-` prefix, the serial, a 19-character second-resolution
timestamp and the `.json` suffix; and the serialized document lists the
snapshot keys in insertion order (no sorting, `sort_keys=False`) — in
particular keys that are not alphabetically ordered stay in snapshot
order. -/
theorem output_file_format (serial : Int) (t : Timestamp) (s : Snapshot)
    (d : DeviceRun) (snap : Snapshot)
    (hs : (acquire d.behav none).result = LoopResult.success snap)
    (hw : d.writeOk = true) :
    (dataFileName serial t = "WavePlusPlus-" ++ toString serial ++ "-" ++ strftimeSecond t ++ ".json" ∧
      (strftimeSecond t).length = 19) ∧
    jsonKeys (snapshotJson s) = s.map Prod.fst ∧
    jsonKeys (snapshotJson [("temp", some 21), ("co2", some 400)]) = ["temp", "co2"] ∧
    deviceOutcome d = DevOutcome.saved (dataFileName d.serial d.stamp) snap := by
  refine ⟨⟨rfl, strftimeSecond_length t⟩, snapshotJson_keys s, rfl, ?_⟩
  simp [deviceOutcome, hs, hw]

/-- Witness for `output_file_format` at a concrete input: a device that
succeeds on the first attempt with `writeOk` produces exactly the `saved`
outcome with the patterned filename. -/
theorem output_file_format_witness :
    ((acquire devGood.behav none).result = LoopResult.success [("radon", some 3)] ∧
      devGood.writeOk = true) ∧
    dataFileName 2930000001 devGood.stamp = "WavePlusPlus-2930000001-2025-01-02-03-04-05.json" ∧
    deviceOutcome devGood =
      DevOutcome.saved (dataFileName devGood.serial devGood.stamp) [("radon", some 3)] := by
  refine ⟨⟨by decide, rfl⟩, rfl, ?_⟩
  exact (output_file_format 2930000001 devGood.stamp [] devGood [("radon", some 3)]
    (by decide) rfl).2.2.2

/-! ## Claim C9 -/

/-- A truthy configuration whose resolved device list is empty. -/
def cfgEmptyDevices : Cfg := { devices := some [], output := none }

/-- Claim C9 (counterexample): with no CLI serial list and a truthy config
resolving to an empty device list, the run is not fatal: the device loop
runs zero iterations, `main` returns normally and the process exits 0, not
non-zero as the claim requires for an empty resolved device list. -/
theorem empty_device_list_exits_zero_cex :
    resolveDevices none (some cfgEmptyDevices) = Except.ok ([], "data") ∧
    runDevices [] none = [] ∧
    mainRun none (some cfgEmptyDevices) = MainOutcome.normal ∧
    exit_code (mainRun none (some cfgEmptyDevices)) = 0 ∧ (0 : Nat) ≠ 1 := by
  refine ⟨rfl, rfl, rfl, rfl, by decide⟩

/-- Claim C9 (amended): with no CLI serial list, a missing, unreadable or
empty (falsy) config is fatal: `main` raises `FileNotFoundError`, the error
is reported once by the exit guard and the process exits 1.  A truthy
config, however, never makes the run fatal at resolution time — even when
its resolved device list is empty, `main` completes normally and the
process exits 0. -/
theorem config_error_fatal (cli : Option String) (cfg : Option Cfg)
    (hcli : strTruthy cli = false) :
    (cfg = none →
      mainRun cli cfg =
        MainOutcome.excOut (PyExc.fileNotFound "No devices passed and no config.json found.") ∧
      exit_code (mainRun cli cfg) = 1) ∧
    (∀ c, cfg = some c →
      mainRun cli cfg = MainOutcome.normal ∧ exit_code (mainRun cli cfg) = 0) := by
  constructor
  · rintro rfl
    constructor <;> simp [mainRun, resolveDevices, hcli, exit_code]
  · rintro c rfl
    constructor <;> simp [mainRun, resolveDevices, hcli, exit_code]

/-- Witness for `config_error_fatal` at a concrete input: no CLI argument
and a missing config exits 1. -/
theorem config_error_fatal_witness :
    strTruthy none = false ∧
    mainRun none none =
      MainOutcome.excOut (PyExc.fileNotFound "No devices passed and no config.json found.") ∧
    exit_code (mainRun none none) = 1 := by
  refine ⟨rfl, ?_⟩
  exact (config_error_fatal none none rfl).1 rfl

/-! ## Claim C10 -/

/-- Claim C10: the exit guard maps a normal completion of `main` to process
status 0, a user interruption (`KeyboardInterrupt`) to status 0, and any
other escaping error to status 1; and `main` itself either completes
normally or raises an exception (interruption is injected externally). -/
theorem process_exit_codes (cli : Option String) (cfg : Option Cfg) :
    exit_code MainOutcome.normal = 0 ∧
    exit_code MainOutcome.interrupted = 0 ∧
    (∀ e, exit_code (MainOutcome.excOut e) = 1) ∧
    (mainRun cli cfg = MainOutcome.normal ∨ ∃ e, mainRun cli cfg = MainOutcome.excOut e) := by
  refine ⟨rfl, rfl, fun e => rfl, ?_⟩
  cases h : resolveDevices cli cfg with
  | ok v => exact Or.inl (by simp [mainRun, h])
  | error e => exact Or.inr ⟨e, by simp [mainRun, h]⟩
